import Mathlib

/-!
Shallow embedding of the litep2p transport manager and TCP negotiation
pipeline (src/transport/manager.rs, src/transport/tcp.rs).

Modelling conventions:
- PeerId is an abstract Nat; a multihash either parses to a PeerId or not.
- Multiaddr is the ordered list of its protocol segments.
- HashMap is an association list (insert replaces the entry with the key);
  HashSet of addresses is a duplicate-free list, with set iteration order
  modelled as list order.
- Channel sends always succeed and are recorded as an output list of
  commands; asynchronous DNS resolution is recorded in a pending pool.
- A Rust panic (todo, a firing debug assertion) is modelled as Option.none;
  the debug-assertions build flag is an explicit Bool parameter.
-/

namespace Litep2p

/-- Peer identity, abstracted to a number. -/
abbrev PeerId := Nat

/-- A multihash carried in a p2p segment: it either decodes to a valid
peer identity or it does not. -/
inductive MultiHash where
  | valid (peer : PeerId)
  | invalid (raw : Nat)
deriving DecidableEq, Repr

/-- Model of PeerId.from_multihash: succeeds exactly on valid hashes. -/
def fromMultihash : MultiHash → Option PeerId
  | MultiHash.valid peer => some peer
  | MultiHash.invalid _ => none

/-- One segment of a multiaddress (the protocols used by the manager). -/
inductive Proto where
  | ip4 (host : Nat)
  | ip6 (host : Nat)
  | dns (host : String)
  | dns4 (host : String)
  | dns6 (host : String)
  | tcp (port : Nat)
  | udp (port : Nat)
  | ws (info : String)
  | quicV1
  | p2p (hash : MultiHash)
deriving DecidableEq, Repr

/-- A multiaddress is its ordered list of segments. -/
abbrev Multiaddr := List Proto

/-- Address-specific errors (error.rs AddressError). -/
inductive AddressError where
  | peerIdMissing
  | invalidProtocol
deriving DecidableEq, Repr

/-- The error variants reachable from the modelled manager code. -/
inductive Error where
  | triedToDialSelf
  | peerDoesntExist (peer : PeerId)
  | alreadyConnected
  | noAddressAvailable (peer : PeerId)
  | transportNotSupported (address : Multiaddr)
  | invalidData
  | addressError (inner : AddressError)
  | dnsAddressResolutionFailed
deriving DecidableEq, Repr

/-- Supported transport kinds (manager.rs SupportedTransport). -/
inductive SupportedTransport where
  | tcp
  | quic
  | webRtc
  | webSocket
deriving DecidableEq, Repr

/-- Peer dialing state (manager.rs PeerState). -/
inductive PeerState where
  | connected (address : Multiaddr)
  | dialing (address : Multiaddr)
  | disconnected
deriving DecidableEq, Repr

/-- Peer record: state plus known addresses (manager.rs PeerContext). -/
structure PeerContext where
  state : PeerState
  addresses : List Multiaddr
deriving DecidableEq, Repr

/-- Association-list lookup (HashMap.get). -/
def lookupAssoc {α β : Type} [DecidableEq α] (l : List (α × β)) (key : α) : Option β :=
  match l with
  | [] => none
  | entry :: rest => if entry.1 = key then some entry.2 else lookupAssoc rest key

/-- Association-list insert, replacing an existing entry (HashMap.insert). -/
def insertAssoc {α β : Type} [DecidableEq α] (key : α) (value : β) :
    List (α × β) → List (α × β)
  | [] => [(key, value)]
  | entry :: rest =>
    if entry.1 = key then (key, value) :: rest
    else entry :: insertAssoc key value rest

/-- Association-list remove, returning the removed value and the remaining
entries (HashMap.remove). -/
def removeAssoc {α β : Type} [DecidableEq α] (key : α) :
    List (α × β) → Option (β × List (α × β))
  | [] => none
  | entry :: rest =>
    if entry.1 = key then some (entry.2, rest)
    else
      match removeAssoc key rest with
      | none => none
      | some found => some (found.1, entry :: found.2)

/-- HashSet insert for address sets: add the address if absent. -/
def insertAddr (address : Multiaddr) (l : List Multiaddr) : List Multiaddr :=
  if address ∈ l then l else l ++ [address]

/-- The state of the TransportManager that the dial paths touch
(manager.rs TransportManager). -/
structure Manager where
  localPeerId : PeerId
  listenAddresses : List Multiaddr
  peers : List (PeerId × PeerContext)
  transports : List SupportedTransport
  nextConnectionId : Nat
  pendingConnections : List (Nat × PeerId)
  pendingDnsResolves : List (Nat × Multiaddr)
deriving DecidableEq, Repr

instance {ε α : Type} [DecidableEq ε] [DecidableEq α] : DecidableEq (Except ε α) := fun
  | Except.ok a, Except.ok b =>
    if h : a = b then Decidable.isTrue (by rw [h])
    else Decidable.isFalse (by intro hc; cases hc; exact h rfl)
  | Except.error a, Except.error b =>
    if h : a = b then Decidable.isTrue (by rw [h])
    else Decidable.isFalse (by intro hc; cases hc; exact h rfl)
  | Except.ok _, Except.error _ => Decidable.isFalse (by intro hc; cases hc)
  | Except.error _, Except.ok _ => Decidable.isFalse (by intro hc; cases hc)

/-- Outcome of one dial call: the returned result, the manager afterwards,
and the Dial commands sent to transports. -/
structure DialStep where
  result : Except Error Unit
  manager : Manager
  sent : List (SupportedTransport × Multiaddr × Nat)
deriving DecidableEq, Repr

/-- The transport and remote peer resolved from the segments following the
leading ip4 or ip6 segment (manager.rs dial_address, second match). -/
def resolveTransport (stack : List Proto) (address : Multiaddr) :
    Except Error (SupportedTransport × PeerId) :=
  match stack with
  | Proto.tcp _ :: rest =>
    match rest with
    | Proto.ws _ :: rest2 =>
      match rest2 with
      | Proto.p2p hash :: _ =>
        match fromMultihash hash with
        | some peer => Except.ok (SupportedTransport.webSocket, peer)
        | none => Except.error Error.invalidData
      | _ => Except.error (Error.transportNotSupported address)
    | Proto.p2p hash :: _ =>
      match fromMultihash hash with
      | some peer => Except.ok (SupportedTransport.tcp, peer)
      | none => Except.error Error.invalidData
    | _ => Except.error (Error.transportNotSupported address)
  | Proto.udp _ :: rest =>
    match rest with
    | Proto.quicV1 :: rest2 =>
      match rest2 with
      | Proto.p2p hash :: _ =>
        match fromMultihash hash with
        | some peer => Except.ok (SupportedTransport.quic, peer)
        | none => Except.error Error.invalidData
      | _ => Except.error (Error.addressError AddressError.peerIdMissing)
    | _ => Except.error (Error.transportNotSupported address)
  | _ => Except.error (Error.transportNotSupported address)

/-- Tail of dial_address after the peer table update: mint a connection id,
look up the transport for the resolved kind (an unregistered kind is a
TransportNotSupported error raised after the peer update and the id mint),
send the Dial command and record the pending connection. -/
def dialAddressDispatch (m : Manager) (address : Multiaddr)
    (kind : SupportedTransport) (remote : PeerId)
    (newPeers : List (PeerId × PeerContext)) : DialStep :=
  let connection := m.nextConnectionId
  if kind ∈ m.transports then
    ⟨Except.ok (),
      { m with
          peers := newPeers,
          nextConnectionId := connection + 1,
          pendingConnections := insertAssoc connection remote m.pendingConnections },
      [(kind, address, connection)]⟩
  else
    ⟨Except.error (Error.transportNotSupported address),
      { m with peers := newPeers, nextConnectionId := connection + 1 }, []⟩

/-- Peer table update of dial_address: a fresh peer is inserted as Dialing
with the address as its only known address; a Dialing or Connected peer
makes the call an Ok no-op; a Disconnected peer gets the address added and
transitions to Dialing. -/
def dialAddressInner (m : Manager) (address : Multiaddr)
    (kind : SupportedTransport) (remote : PeerId) : DialStep :=
  match lookupAssoc m.peers remote with
  | some ctx =>
    match ctx.state with
    | PeerState.dialing _ => ⟨Except.ok (), m, []⟩
    | PeerState.connected _ => ⟨Except.ok (), m, []⟩
    | PeerState.disconnected =>
      dialAddressDispatch m address kind remote
        (insertAssoc remote
          ⟨PeerState.dialing address, insertAddr address ctx.addresses⟩ m.peers)
  | none =>
    dialAddressDispatch m address kind remote
      (insertAssoc remote ⟨PeerState.dialing address, [address]⟩ m.peers)

/-- Model of TransportManager.dial_address (manager.rs lines 568..693). -/
def dialAddress (m : Manager) (address : Multiaddr) : DialStep :=
  if address ∈ m.listenAddresses then
    ⟨Except.error Error.triedToDialSelf, m, []⟩
  else
    match address with
    | [] => ⟨Except.error (Error.transportNotSupported address), m, []⟩
    | seg :: rest =>
      match seg with
      | Proto.ip4 _ | Proto.ip6 _ =>
        match resolveTransport rest address with
        | Except.error e => ⟨Except.error e, m, []⟩
        | Except.ok resolved => dialAddressInner m address resolved.1 resolved.2
      | Proto.dns _ | Proto.dns4 _ | Proto.dns6 _ =>
        ⟨Except.ok (),
          { m with
              nextConnectionId := m.nextConnectionId + 1,
              pendingDnsResolves :=
                m.pendingDnsResolves ++ [(m.nextConnectionId, address)] },
          []⟩
      | _ => ⟨Except.error (Error.transportNotSupported address), m, []⟩

/-- Model of TransportManager.dial (manager.rs lines 535..563). The
arbitrary iteration order of the known-address HashSet is modelled as list
order: the head is popped and removed from the set before dialing it. -/
def dial (m : Manager) (peer : PeerId) : DialStep :=
  if peer = m.localPeerId then ⟨Except.error Error.triedToDialSelf, m, []⟩
  else
    match lookupAssoc m.peers peer with
    | none => ⟨Except.error (Error.peerDoesntExist peer), m, []⟩
    | some ctx =>
      match ctx.state with
      | PeerState.connected _ => ⟨Except.error Error.alreadyConnected, m, []⟩
      | PeerState.dialing _ => ⟨Except.ok (), m, []⟩
      | PeerState.disconnected =>
        match ctx.addresses with
        | [] => ⟨Except.error (Error.noAddressAvailable peer), m, []⟩
        | next :: remaining =>
          dialAddress
            { m with
                peers := insertAssoc peer ⟨PeerState.disconnected, remaining⟩ m.peers }
            next

/-- A resolved IP address returned by the DNS lookup. -/
inductive IpAddr where
  | v4 (host : Nat)
  | v6 (host : Nat)
deriving DecidableEq, Repr

/-- Select the v6 payload of a resolved address. -/
def isV6 : IpAddr → Option Nat
  | IpAddr.v6 host => some host
  | _ => none

/-- Select the v4 payload of a resolved address. -/
def isV4 : IpAddr → Option Nat
  | IpAddr.v4 host => some host
  | _ => none

/-- Model of TransportManager.on_resolved_dns_address (manager.rs lines
696..757). Option.none models the panics on an empty address or a
non-dns leading segment; the lookup result is the ordered list of
resolved addresses. -/
def onResolvedDnsAddress (address : Multiaddr) (result : Except Unit (List IpAddr)) :
    Option (Except Error Multiaddr) :=
  match result with
  | Except.error _ => some (Except.error Error.dnsAddressResolutionFailed)
  | Except.ok resolved =>
    match address with
    | Proto.dns4 _ :: rest =>
      match resolved with
      | IpAddr.v4 host :: _ => some (Except.ok (Proto.ip4 host :: rest))
      | _ => some (Except.error (Error.transportNotSupported address))
    | Proto.dns6 _ :: rest =>
      match resolved with
      | IpAddr.v6 host :: _ => some (Except.ok (Proto.ip6 host :: rest))
      | _ => some (Except.error (Error.transportNotSupported address))
    | Proto.dns _ :: rest =>
      match resolved.filterMap isV6 with
      | host :: _ => some (Except.ok (Proto.ip6 host :: rest))
      | [] =>
        match resolved.filterMap isV4 with
        | host :: _ => some (Except.ok (Proto.ip4 host :: rest))
        | [] => some (Except.error (Error.transportNotSupported address))
    | _ => none

/-- The transport manager events (manager.rs TransportManagerEvent). -/
inductive TMEvent where
  | connectionEstablished (peer : PeerId) (connection : Nat) (address : Multiaddr)
  | connectionClosed (peer : PeerId) (connection : Nat)
  | dialFailure (connection : Nat) (address : Multiaddr) (error : Error)
deriving DecidableEq, Repr

/-- Model of TransportManager.on_transport_manager_event (manager.rs lines
760..838). The dbg flag is the debug-assertions build setting; none models
a panic (the todo on a peer-id mismatch, or a firing debug assertion). -/
def onTransportManagerEvent (dbg : Bool) (m : Manager) (event : TMEvent) :
    Option (Manager × TMEvent) :=
  match event with
  | TMEvent.dialFailure connection _ _ =>
    match removeAssoc connection m.pendingConnections with
    | none => if dbg then none else some (m, event)
    | some found =>
      let m2 := { m with pendingConnections := found.2 }
      match lookupAssoc m2.peers found.1 with
      | some ctx =>
        some ({ m2 with
                  peers := insertAssoc found.1
                    ⟨PeerState.disconnected, ctx.addresses⟩ m2.peers }, event)
      | none => some (m2, event)
  | TMEvent.connectionEstablished peer connection address =>
    match removeAssoc connection m.pendingConnections with
    | some found =>
      if found.1 ≠ peer then none
      else
        let m2 := { m with pendingConnections := found.2 }
        match lookupAssoc m2.peers found.1 with
        | some ctx =>
          some ({ m2 with
                    peers := insertAssoc found.1
                      ⟨PeerState.connected address, insertAddr address ctx.addresses⟩
                      m2.peers }, event)
        | none =>
          some ({ m2 with
                    peers := insertAssoc peer
                      ⟨PeerState.connected address, [address]⟩ m2.peers }, event)
    | none =>
      some ({ m with
                peers := insertAssoc peer
                  ⟨PeerState.connected address, [address]⟩ m.peers }, event)
  | TMEvent.connectionClosed peer _ =>
    match lookupAssoc m.peers peer with
    | some ctx =>
      some ({ m with
                peers := insertAssoc peer
                  ⟨PeerState.disconnected, ctx.addresses⟩ m.peers }, event)
    | none => some (m, event)

/-- Result of TransportHandle.report_dial_failure: the per-protocol
DialFailure notifications fanned out, and the event forwarded to the
manager. -/
structure DialFailureFanout where
  notifications : List (String × PeerId × Multiaddr)
  forwarded : TMEvent
deriving DecidableEq, Repr

/-- Model of TransportHandle.report_dial_failure (manager.rs lines
274..313). The dbg flag is the debug-assertions build setting; none models
the debug assertion firing when the trailing identity segment is missing
or fails to parse. Protocol registry iteration is modelled as list order. -/
def reportDialFailure (dbg : Bool) (protocols : List String)
    (connection : Nat) (address : Multiaddr) (error : Error) :
    Option DialFailureFanout :=
  let forward : TMEvent := TMEvent.dialFailure connection address error
  match address.getLast? with
  | some (Proto.p2p hash) =>
    match fromMultihash hash with
    | some peer =>
      some ⟨protocols.map (fun name => (name, peer, address)), forward⟩
    | none => if dbg then none else some ⟨[], forward⟩
  | _ => if dbg then none else some ⟨[], forward⟩

/-- Role of a connection (config.rs Role). -/
inductive Role where
  | dialer
  | listener
deriving DecidableEq, Repr

/-- Yamux connection mode. -/
inductive YamuxMode where
  | client
  | server
deriving DecidableEq, Repr

/-- Noise configuration: carries the locally configured role. -/
structure NoiseConfiguration where
  role : Role
deriving DecidableEq, Repr

/-- The multiplexed connection object produced by the pipeline: the
encrypted stream it is bound to and the yamux mode it was built with. -/
structure YamuxConnection (Conn : Type) where
  sock : Conn
  mode : YamuxMode
deriving DecidableEq, Repr

/-- Model of TcpTransport.negotiate_protocol (tcp.rs lines 188..210):
a single multistream-select round, abstracted by the dialerSelect oracle. -/
def negotiateProtocol {Conn : Type}
    (dialerSelect : Conn → List String → Except Error Conn)
    (sock : Conn) (protocols : List String) : Except Error Conn :=
  dialerSelect sock protocols

/-- Model of TcpTransport.initialize_connection (tcp.rs lines 215..247):
negotiate the noise security protocol, run the noise handshake, negotiate
yamux, then build the yamux connection. The source builds the yamux
connection with Mode.Client unconditionally, for both roles. -/
def initializeConnection {Conn : Type}
    (dialerSelect : Conn → List String → Except Error Conn)
    (handshake : Conn → NoiseConfiguration → Except Error (Conn × PeerId))
    (sock : Conn) (_role : Role) (noiseConfig : NoiseConfiguration) :
    Except Error (YamuxConnection Conn) :=
  match negotiateProtocol dialerSelect sock ["/noise"] with
  | Except.error e => Except.error e
  | Except.ok sock1 =>
    match handshake sock1 noiseConfig with
    | Except.error e => Except.error e
    | Except.ok secured =>
      match negotiateProtocol dialerSelect secured.1 ["/yamux/1.0.0"] with
      | Except.error e => Except.error e
      | Except.ok sock2 => Except.ok ⟨sock2, YamuxMode.client⟩

/-- Is the segment a literal ip4 or ip6 endpoint? -/
def isIpSeg : Proto → Bool
  | Proto.ip4 _ => true
  | Proto.ip6 _ => true
  | _ => false

/-- Is the segment a symbolic dns host? -/
def isDnsSeg : Proto → Bool
  | Proto.dns _ => true
  | Proto.dns4 _ => true
  | Proto.dns6 _ => true
  | _ => false

/-- Does the stack continue with an embedded peer identity segment? -/
def headIsP2p : List Proto → Bool
  | Proto.p2p _ :: _ => true
  | _ => false

/-- Stacks whose leading segments select a transport kind (tcp+p2p,
tcp+ws+p2p, or udp+quic-v1): exactly these can be rejected with an error
other than TransportNotSupported. -/
def kindSelectingStack : List Proto → Bool
  | Proto.tcp _ :: Proto.p2p _ :: _ => true
  | Proto.tcp _ :: Proto.ws _ :: Proto.p2p _ :: _ => true
  | Proto.udp _ :: Proto.quicV1 :: _ => true
  | _ => false

/-- The peer is absent or Disconnected, so a dial is not gated by the
dedup check. -/
def notBlocked (m : Manager) (peer : PeerId) : Bool :=
  match lookupAssoc m.peers peer with
  | none => true
  | some ctx =>
    match ctx.state with
    | PeerState.disconnected => true
    | _ => false

/-- Number of pending-connection entries recorded for a given peer. -/
def countPeer (peer : PeerId) : List (Nat × PeerId) → Nat
  | [] => 0
  | entry :: rest => (if entry.2 = peer then 1 else 0) + countPeer peer rest

/-! Concrete states and addresses used by witnesses and counterexamples. -/

/-- A fresh manager with local peer 9 and the TCP transport registered. -/
def mW : Manager := ⟨9, [], [], [SupportedTransport.tcp], 0, [], []⟩

/-- A TCP address carrying peer identity 7. -/
def a1 : Multiaddr := [Proto.ip4 1, Proto.tcp 8888, Proto.p2p (MultiHash.valid 7)]

/-- A second, distinct TCP address carrying the same peer identity 7. -/
def a2 : Multiaddr := [Proto.ip6 2, Proto.tcp 8888, Proto.p2p (MultiHash.valid 7)]

/-- A malformed known address: udp with no quic segment. -/
def badAddr : Multiaddr := [Proto.ip4 1, Proto.udp 2]

/-- Manager knowing peer 7 as Disconnected with only the malformed address. -/
def m3 : Manager :=
  ⟨9, [], [(7, ⟨PeerState.disconnected, [badAddr]⟩)], [SupportedTransport.tcp], 0, [], []⟩

/-- A symbolic-host address carrying peer identity 7. -/
def dnsA : Multiaddr := [Proto.dns "example", Proto.tcp 1, Proto.p2p (MultiHash.valid 7)]

/-- Manager knowing peer 7 as Disconnected with only the dns address. -/
def m4 : Manager :=
  ⟨9, [], [(7, ⟨PeerState.disconnected, [dnsA]⟩)], [SupportedTransport.tcp], 0, [], []⟩

/-- A quic address with the trailing peer identity segment missing. -/
def addr6 : Multiaddr := [Proto.ip4 1, Proto.udp 8888, Proto.quicV1]

/-- Manager with peer 7 already Dialing and no transport registered. -/
def mD : Manager := ⟨9, [], [(7, ⟨PeerState.dialing a1, [a1]⟩)], [], 0, [], []⟩

/-- A fresh manager with no transport registered. -/
def m7 : Manager := ⟨9, [], [], [], 0, [], []⟩

/-- Manager with peer 7 already Connected on address a1. -/
def mC : Manager :=
  ⟨9, [], [(7, ⟨PeerState.connected a1, [a1]⟩)], [SupportedTransport.tcp], 0, [], []⟩

/-- The resolution results used by the C5 witness. -/
def ipsW : List IpAddr := [IpAddr.v4 4, IpAddr.v6 6, IpAddr.v6 60]

/-! Helper lemmas about the association-list and set operations. -/

theorem lookupAssoc_insertAssoc_self {α β : Type} [DecidableEq α]
    (l : List (α × β)) (key : α) (value : β) :
    lookupAssoc (insertAssoc key value l) key = some value := by
  induction l with
  | nil => simp [insertAssoc, lookupAssoc]
  | cons entry rest ih =>
    by_cases h : entry.1 = key
    · simp [insertAssoc, lookupAssoc, h]
    · simp [insertAssoc, lookupAssoc, h, ih]

theorem insertAssoc_eq_append_of_lookup_none {α β : Type} [DecidableEq α]
    {l : List (α × β)} {key : α} (value : β) (h : lookupAssoc l key = none) :
    insertAssoc key value l = l ++ [(key, value)] := by
  induction l with
  | nil => simp [insertAssoc]
  | cons entry rest ih =>
    simp only [lookupAssoc] at h
    by_cases he : entry.1 = key
    · simp [he] at h
    · simp only [he, if_false] at h
      simp [insertAssoc, he, ih h]

theorem removeAssoc_eq_none_of_lookup_none {α β : Type} [DecidableEq α]
    {l : List (α × β)} {key : α} (h : lookupAssoc l key = none) :
    removeAssoc key l = none := by
  induction l with
  | nil => simp [removeAssoc]
  | cons entry rest ih =>
    simp only [lookupAssoc] at h
    by_cases he : entry.1 = key
    · simp [he] at h
    · simp only [he, if_false] at h
      simp [removeAssoc, he, ih h]

theorem countPeer_append (peer : PeerId) (l1 l2 : List (Nat × PeerId)) :
    countPeer peer (l1 ++ l2) = countPeer peer l1 + countPeer peer l2 := by
  induction l1 with
  | nil => simp [countPeer]
  | cons entry rest ih => simp [countPeer, ih, Nat.add_assoc]

theorem mem_insertAddr_self (address : Multiaddr) (l : List Multiaddr) :
    address ∈ insertAddr address l := by
  unfold insertAddr
  by_cases h : address ∈ l
  · simp [h]
  · simp [h]

/-! Reduction lemmas for the dial paths. -/

theorem dialAddress_resolve_ok {m : Manager} {seg : Proto} {rest : List Proto}
    {kind : SupportedTransport} {remote : PeerId}
    (hip : isIpSeg seg = true)
    (hl : (seg :: rest) ∉ m.listenAddresses)
    (hr : resolveTransport rest (seg :: rest) = Except.ok (kind, remote)) :
    dialAddress m (seg :: rest) = dialAddressInner m (seg :: rest) kind remote := by
  cases seg <;> simp [isIpSeg] at hip <;> simp [dialAddress, hl, hr]

theorem dialAddress_resolve_error {m : Manager} {seg : Proto} {rest : List Proto}
    {e : Error}
    (hip : isIpSeg seg = true)
    (hl : (seg :: rest) ∉ m.listenAddresses)
    (hr : resolveTransport rest (seg :: rest) = Except.error e) :
    dialAddress m (seg :: rest) = ⟨Except.error e, m, []⟩ := by
  cases seg <;> simp [isIpSeg] at hip <;> simp [dialAddress, hl, hr]

theorem dialAddressInner_noop {m : Manager} {address : Multiaddr}
    {kind : SupportedTransport} {remote : PeerId} {ctx : PeerContext}
    (h : lookupAssoc m.peers remote = some ctx)
    (hb : (match ctx.state with
           | PeerState.disconnected => false
           | _ => true) = true) :
    dialAddressInner m address kind remote = ⟨Except.ok (), m, []⟩ := by
  cases hs : ctx.state <;> rw [hs] at hb <;> simp at hb <;>
    simp [dialAddressInner, h, hs]

theorem state_of_notBlocked {m : Manager} {remote : PeerId} {ctx : PeerContext}
    (h : lookupAssoc m.peers remote = some ctx)
    (hf : notBlocked m remote = true) : ctx.state = PeerState.disconnected := by
  unfold notBlocked at hf
  simp only [h] at hf
  cases hs : ctx.state <;> simp [hs] at hf
  rfl

theorem dialAddress_dispatch_shape {m : Manager} {seg : Proto} {rest : List Proto}
    {kind : SupportedTransport} {remote : PeerId}
    (hip : isIpSeg seg = true)
    (hl : (seg :: rest) ∉ m.listenAddresses)
    (hr : resolveTransport rest (seg :: rest) = Except.ok (kind, remote))
    (hfresh : notBlocked m remote = true)
    (ht : kind ∈ m.transports) :
    ∃ addrs,
      dialAddress m (seg :: rest) =
        ⟨Except.ok (),
          { m with
              peers := insertAssoc remote
                ⟨PeerState.dialing (seg :: rest), addrs⟩ m.peers,
              nextConnectionId := m.nextConnectionId + 1,
              pendingConnections :=
                insertAssoc m.nextConnectionId remote m.pendingConnections },
          [(kind, seg :: rest, m.nextConnectionId)]⟩ ∧
      (seg :: rest) ∈ addrs := by
  rw [dialAddress_resolve_ok hip hl hr]
  cases hlk : lookupAssoc m.peers remote with
  | none =>
    exact ⟨[seg :: rest],
      by simp [dialAddressInner, hlk, dialAddressDispatch, ht], by simp⟩
  | some ctx =>
    have hs := state_of_notBlocked hlk hfresh
    exact ⟨insertAddr (seg :: rest) ctx.addresses,
      by simp [dialAddressInner, hlk, hs, dialAddressDispatch, ht],
      mem_insertAddr_self _ _⟩

theorem dialAddress_unregistered_shape {m : Manager} {seg : Proto} {rest : List Proto}
    {kind : SupportedTransport} {remote : PeerId}
    (hip : isIpSeg seg = true)
    (hl : (seg :: rest) ∉ m.listenAddresses)
    (hr : resolveTransport rest (seg :: rest) = Except.ok (kind, remote))
    (hfresh : notBlocked m remote = true)
    (ht : kind ∉ m.transports) :
    ∃ newPeers,
      dialAddress m (seg :: rest) =
        ⟨Except.error (Error.transportNotSupported (seg :: rest)),
          { m with peers := newPeers, nextConnectionId := m.nextConnectionId + 1 },
          []⟩ := by
  rw [dialAddress_resolve_ok hip hl hr]
  cases hlk : lookupAssoc m.peers remote with
  | none =>
    exact ⟨insertAssoc remote ⟨PeerState.dialing (seg :: rest), [seg :: rest]⟩ m.peers,
      by simp [dialAddressInner, hlk, dialAddressDispatch, ht]⟩
  | some ctx =>
    have hs := state_of_notBlocked hlk hfresh
    exact ⟨insertAssoc remote
        ⟨PeerState.dialing (seg :: rest), insertAddr (seg :: rest) ctx.addresses⟩ m.peers,
      by simp [dialAddressInner, hlk, hs, dialAddressDispatch, ht]⟩

/-! Claim theorems. -/

/-- Claim C2: dial by peer id returns exactly TriedToDialSelf when the peer
is the local peer, PeerDoesntExist when no record exists, AlreadyConnected
when the peer is Connected (with no manager state mutated, in particular
the pending-dial table), Ok as a no-op when the peer is already Dialing,
NoAddressAvailable when the peer is Disconnected with an empty known
address set, and otherwise pops one known address and proceeds via
dial_address. -/
theorem dial_by_peer_id_characterization (m : Manager) (peer : PeerId) :
    (peer = m.localPeerId →
      dial m peer = ⟨Except.error Error.triedToDialSelf, m, []⟩) ∧
    (peer ≠ m.localPeerId → lookupAssoc m.peers peer = none →
      dial m peer = ⟨Except.error (Error.peerDoesntExist peer), m, []⟩) ∧
    (∀ ctx a, peer ≠ m.localPeerId → lookupAssoc m.peers peer = some ctx →
      ctx.state = PeerState.connected a →
      dial m peer = ⟨Except.error Error.alreadyConnected, m, []⟩) ∧
    (∀ ctx a, peer ≠ m.localPeerId → lookupAssoc m.peers peer = some ctx →
      ctx.state = PeerState.dialing a →
      dial m peer = ⟨Except.ok (), m, []⟩) ∧
    (∀ ctx, peer ≠ m.localPeerId → lookupAssoc m.peers peer = some ctx →
      ctx.state = PeerState.disconnected → ctx.addresses = [] →
      dial m peer = ⟨Except.error (Error.noAddressAvailable peer), m, []⟩) ∧
    (∀ ctx next remaining, peer ≠ m.localPeerId →
      lookupAssoc m.peers peer = some ctx →
      ctx.state = PeerState.disconnected → ctx.addresses = next :: remaining →
      dial m peer =
        dialAddress
          { m with
              peers := insertAssoc peer ⟨PeerState.disconnected, remaining⟩ m.peers }
          next) := by
  refine ⟨?_, ?_, ?_, ?_, ?_, ?_⟩
  · intro h; simp [dial, h]
  · intro h hlk; simp [dial, h, hlk]
  · intro ctx a h hlk hs; simp [dial, h, hlk, hs]
  · intro ctx a h hlk hs; simp [dial, h, hlk, hs]
  · intro ctx h hlk hs ha; simp [dial, h, hlk, hs, ha]
  · intro ctx next remaining h hlk hs ha; simp [dial, h, hlk, hs, ha]

/-- Witness for C2: dialing the Connected peer 7 returns AlreadyConnected
and leaves the manager unchanged. -/
theorem dial_by_peer_id_characterization_witness :
    7 ≠ mC.localPeerId ∧
    lookupAssoc mC.peers 7 = some ⟨PeerState.connected a1, [a1]⟩ ∧
    dial mC 7 = ⟨Except.error Error.alreadyConnected, mC, []⟩ :=
  ⟨by decide, by decide,
    (dial_by_peer_id_characterization mC 7).2.2.1 ⟨PeerState.connected a1, [a1]⟩ a1
      (by decide) (by decide) rfl⟩

/-- Claim C5: on a dns-headed address, when the resolution results contain
at least one IPv6 address the rewritten address leads with the first IPv6
result and preserves the non-host segments verbatim in order; with no IPv6
result it falls back to the first IPv4 result. -/
theorem on_resolved_dns_prefers_first_ip6 :
    (∀ (host : String) (rest : List Proto) (ips : List IpAddr),
       ips.filterMap isV6 ≠ [] → ips.filterMap isV4 ≠ [] →
       ∃ a, (ips.filterMap isV6).head? = some a ∧
         onResolvedDnsAddress (Proto.dns host :: rest) (Except.ok ips) =
           some (Except.ok (Proto.ip6 a :: rest))) ∧
    (∀ (host : String) (rest : List Proto) (ips : List IpAddr),
       ips.filterMap isV6 = [] → ips.filterMap isV4 ≠ [] →
       ∃ a, (ips.filterMap isV4).head? = some a ∧
         onResolvedDnsAddress (Proto.dns host :: rest) (Except.ok ips) =
           some (Except.ok (Proto.ip4 a :: rest))) := by
  constructor
  · intro host rest ips h6 _h4
    cases hp : ips.filterMap isV6 with
    | nil => exact absurd hp h6
    | cons a t => exact ⟨a, by simp [hp], by simp [onResolvedDnsAddress, hp]⟩
  · intro host rest ips h6 h4
    cases hp : ips.filterMap isV4 with
    | nil => exact absurd hp h4
    | cons a t => exact ⟨a, by simp [hp], by simp [onResolvedDnsAddress, h6, hp]⟩

/-- Witness for C5: a mixed v4/v6 result list rewrites the dns address to
lead with the first IPv6 result, segments after the host preserved. -/
theorem on_resolved_dns_prefers_first_ip6_witness :
    ipsW.filterMap isV6 ≠ [] ∧ ipsW.filterMap isV4 ≠ [] ∧
    (∃ a, (ipsW.filterMap isV6).head? = some a ∧
      onResolvedDnsAddress
          (Proto.dns "example" :: [Proto.tcp 1, Proto.p2p (MultiHash.valid 7)])
          (Except.ok ipsW) =
        some (Except.ok (Proto.ip6 a :: [Proto.tcp 1, Proto.p2p (MultiHash.valid 7)]))) :=
  ⟨by decide, by decide,
    on_resolved_dns_prefers_first_ip6.1 "example"
      [Proto.tcp 1, Proto.p2p (MultiHash.valid 7)] ipsW (by decide) (by decide)⟩

/-- Claim C8 (code bug): the pipeline runs its stages in order and a stage
failure yields a typed error and no connection, but the yamux connection is
built in Client mode unconditionally: for a connection accepted in the
Listener role the multiplexer mode is still Client, not Server as the spec
requires. -/
theorem initialize_connection_always_client_mode :
    initializeConnection (fun sock _ => Except.ok sock)
        (fun sock _ => Except.ok (sock, 0)) (0 : Nat) Role.listener ⟨Role.listener⟩ =
      Except.ok ⟨0, YamuxMode.client⟩ ∧
    YamuxMode.client ≠ YamuxMode.server ∧
    initializeConnection (fun _ _ => Except.error Error.invalidData)
        (fun sock _ => Except.ok (sock, 0)) (0 : Nat) Role.listener ⟨Role.listener⟩ =
      Except.error Error.invalidData :=
  ⟨rfl, by decide, rfl⟩

/-- Counterexample for C9: with debug assertions enabled, reporting a dial
failure for an address with no trailing peer identity segment fires the
debug assertion (modelled as none, a panic), so the function is not
panic-free as claimed. -/
theorem report_dial_failure_debug_assert_cex :
    reportDialFailure true ["/ping"] 0 [Proto.ip4 1, Proto.tcp 8888]
      Error.invalidData = none := by decide

/-- Claim C9 as amended: with debug assertions disabled report_dial_failure
never panics and always forwards the DialFailure event to the manager, and
whenever the trailing identity segment parses it fans a peer-scoped
notification out to every registered protocol (in any build). -/
theorem report_dial_failure_release_behavior
    (protocols : List String) (connection : Nat) (address : Multiaddr) (error : Error) :
    (∃ fan, reportDialFailure false protocols connection address error = some fan ∧
       fan.forwarded = TMEvent.dialFailure connection address error) ∧
    (∀ hash peer dbg, address.getLast? = some (Proto.p2p hash) →
       fromMultihash hash = some peer →
       reportDialFailure dbg protocols connection address error =
         some ⟨protocols.map (fun name => (name, peer, address)),
               TMEvent.dialFailure connection address error⟩) := by
  constructor
  · cases hlast : address.getLast? with
    | none =>
      exact ⟨⟨[], TMEvent.dialFailure connection address error⟩,
        by simp [reportDialFailure, hlast], rfl⟩
    | some seg =>
      cases seg
      case p2p hash =>
        cases hm : fromMultihash hash with
        | none =>
          exact ⟨⟨[], TMEvent.dialFailure connection address error⟩,
            by simp [reportDialFailure, hlast, hm], rfl⟩
        | some peer =>
          exact ⟨⟨protocols.map (fun name => (name, peer, address)),
              TMEvent.dialFailure connection address error⟩,
            by simp [reportDialFailure, hlast, hm], rfl⟩
      all_goals
        exact ⟨⟨[], TMEvent.dialFailure connection address error⟩,
          by simp [reportDialFailure, hlast], rfl⟩
  · intro hash peer dbg hlast hm
    simp [reportDialFailure, hlast, hm]

/-- Witness for C9: a release-build dial failure on a TCP address with a
valid identity segment fans out to the one registered protocol and forwards
the event. -/
theorem report_dial_failure_release_behavior_witness :
    a1.getLast? = some (Proto.p2p (MultiHash.valid 7)) ∧
    fromMultihash (MultiHash.valid 7) = some 7 ∧
    reportDialFailure false ["/ping"] 0 a1 Error.invalidData =
      some ⟨[("/ping", 7, a1)], TMEvent.dialFailure 0 a1 Error.invalidData⟩ :=
  ⟨by decide, rfl,
    (report_dial_failure_release_behavior ["/ping"] 0 a1 Error.invalidData).2
      (MultiHash.valid 7) 7 false (by decide) rfl⟩

/-- Claim C10: a ConnectionEstablished event whose connection id has no
pending entry inserts (overwriting any previous record) the reported peer
as Connected on the event address with that address as its known-address
set, and the event is returned unchanged. -/
theorem established_without_pending_inserts_record
    (dbg : Bool) (m : Manager) (peer : PeerId) (connection : Nat) (address : Multiaddr)
    (h : lookupAssoc m.pendingConnections connection = none) :
    onTransportManagerEvent dbg m (TMEvent.connectionEstablished peer connection address) =
      some ({ m with
                peers := insertAssoc peer
                  ⟨PeerState.connected address, [address]⟩ m.peers },
            TMEvent.connectionEstablished peer connection address) ∧
    lookupAssoc (insertAssoc peer ⟨PeerState.connected address, [address]⟩ m.peers) peer =
      some ⟨PeerState.connected address, [address]⟩ := by
  have hr := removeAssoc_eq_none_of_lookup_none h
  exact ⟨by simp [onTransportManagerEvent, hr], lookupAssoc_insertAssoc_self _ _ _⟩

/-- Witness for C10: an inbound connection (no pending entry) for peer 7
creates its Connected record and returns the event unchanged. -/
theorem established_without_pending_inserts_record_witness :
    lookupAssoc mW.pendingConnections 5 = none ∧
    (onTransportManagerEvent true mW (TMEvent.connectionEstablished 7 5 a1) =
      some ({ mW with
                peers := insertAssoc 7 ⟨PeerState.connected a1, [a1]⟩ mW.peers },
            TMEvent.connectionEstablished 7 5 a1) ∧
     lookupAssoc (insertAssoc 7 ⟨PeerState.connected a1, [a1]⟩ mW.peers) 7 =
       some ⟨PeerState.connected a1, [a1]⟩) :=
  ⟨by decide, established_without_pending_inserts_record true mW 7 5 a1 (by decide)⟩

/-- Claim C1: for a peer that is absent or Disconnected, the first
dial_address call whose trailing identity resolves to that peer transitions
it to Dialing, records exactly one pending-connection entry, and sends
exactly one Dial command; a second call for the same peer, over the same or
a different address, is an Ok no-op leaving the manager unchanged, so
exactly one pending-dial entry for the peer exists. -/
theorem dial_address_single_pending_per_peer
    (m : Manager) (seg1 seg2 : Proto) (r1 r2 : List Proto)
    (k1 k2 : SupportedTransport) (P : PeerId)
    (hip1 : isIpSeg seg1 = true) (hip2 : isIpSeg seg2 = true)
    (hr1 : resolveTransport r1 (seg1 :: r1) = Except.ok (k1, P))
    (hr2 : resolveTransport r2 (seg2 :: r2) = Except.ok (k2, P))
    (hl1 : (seg1 :: r1) ∉ m.listenAddresses)
    (hl2 : (seg2 :: r2) ∉ m.listenAddresses)
    (hfresh : notBlocked m P = true)
    (ht : k1 ∈ m.transports)
    (hcid : lookupAssoc m.pendingConnections m.nextConnectionId = none)
    (hnop : countPeer P m.pendingConnections = 0) :
    (dialAddress m (seg1 :: r1)).result = Except.ok () ∧
    (∃ addrs, lookupAssoc (dialAddress m (seg1 :: r1)).manager.peers P =
      some ⟨PeerState.dialing (seg1 :: r1), addrs⟩) ∧
    (dialAddress m (seg1 :: r1)).manager.pendingConnections =
      m.pendingConnections ++ [(m.nextConnectionId, P)] ∧
    (dialAddress m (seg1 :: r1)).sent = [(k1, seg1 :: r1, m.nextConnectionId)] ∧
    dialAddress (dialAddress m (seg1 :: r1)).manager (seg2 :: r2) =
      ⟨Except.ok (), (dialAddress m (seg1 :: r1)).manager, []⟩ ∧
    countPeer P
      (dialAddress (dialAddress m (seg1 :: r1)).manager
        (seg2 :: r2)).manager.pendingConnections = 1 := by
  obtain ⟨addrs, heq, hmem⟩ := dialAddress_dispatch_shape hip1 hl1 hr1 hfresh ht
  have hlook : lookupAssoc (dialAddress m (seg1 :: r1)).manager.peers P =
      some ⟨PeerState.dialing (seg1 :: r1), addrs⟩ := by
    rw [heq]; exact lookupAssoc_insertAssoc_self _ _ _
  have hl2m : (seg2 :: r2) ∉ (dialAddress m (seg1 :: r1)).manager.listenAddresses := by
    rw [heq]; exact hl2
  have hnoop : dialAddress (dialAddress m (seg1 :: r1)).manager (seg2 :: r2) =
      ⟨Except.ok (), (dialAddress m (seg1 :: r1)).manager, []⟩ := by
    rw [dialAddress_resolve_ok hip2 hl2m hr2]
    exact dialAddressInner_noop hlook rfl
  have hpend : (dialAddress m (seg1 :: r1)).manager.pendingConnections =
      m.pendingConnections ++ [(m.nextConnectionId, P)] := by
    rw [heq]; exact insertAssoc_eq_append_of_lookup_none P hcid
  refine ⟨?_, ⟨addrs, hlook⟩, hpend, ?_, hnoop, ?_⟩
  · rw [heq]
  · rw [heq]
  · rw [hnoop]
    show countPeer P (dialAddress m (seg1 :: r1)).manager.pendingConnections = 1
    rw [hpend, countPeer_append, hnop, countPeer, countPeer]
    simp

/-- Witness for C1: dialing peer 7 over a TCP/ip4 address and then over a
distinct TCP/ip6 address leaves exactly one pending-dial entry. -/
theorem dial_address_single_pending_per_peer_witness :
    isIpSeg (Proto.ip4 1) = true ∧ isIpSeg (Proto.ip6 2) = true ∧
    resolveTransport [Proto.tcp 8888, Proto.p2p (MultiHash.valid 7)] a1 =
      Except.ok (SupportedTransport.tcp, 7) ∧
    resolveTransport [Proto.tcp 8888, Proto.p2p (MultiHash.valid 7)] a2 =
      Except.ok (SupportedTransport.tcp, 7) ∧
    a1 ∉ mW.listenAddresses ∧ a2 ∉ mW.listenAddresses ∧
    notBlocked mW 7 = true ∧ SupportedTransport.tcp ∈ mW.transports ∧
    lookupAssoc mW.pendingConnections mW.nextConnectionId = none ∧
    countPeer 7 mW.pendingConnections = 0 ∧
    ((dialAddress mW a1).result = Except.ok () ∧
     (∃ addrs, lookupAssoc (dialAddress mW a1).manager.peers 7 =
       some ⟨PeerState.dialing a1, addrs⟩) ∧
     (dialAddress mW a1).manager.pendingConnections =
       mW.pendingConnections ++ [(mW.nextConnectionId, 7)] ∧
     (dialAddress mW a1).sent = [(SupportedTransport.tcp, a1, mW.nextConnectionId)] ∧
     dialAddress (dialAddress mW a1).manager a2 =
       ⟨Except.ok (), (dialAddress mW a1).manager, []⟩ ∧
     countPeer 7
       (dialAddress (dialAddress mW a1).manager a2).manager.pendingConnections = 1) :=
  ⟨by decide, by decide, by decide, by decide, by decide, by decide, by decide,
   by decide, by decide, by decide,
   dial_address_single_pending_per_peer mW (Proto.ip4 1) (Proto.ip6 2)
     [Proto.tcp 8888, Proto.p2p (MultiHash.valid 7)]
     [Proto.tcp 8888, Proto.p2p (MultiHash.valid 7)]
     SupportedTransport.tcp SupportedTransport.tcp 7
     (by decide) (by decide) (by decide) (by decide) (by decide) (by decide)
     (by decide) (by decide) (by decide) (by decide)⟩

/-- Counterexample for C3: dial pops the only known (malformed) address of
peer 7, the resulting dial_address fails with a caller error
(TransportNotSupported), and the known-address set has lost the address -
manager state was mutated by a call returning a caller error. -/
theorem caller_error_mutates_state_cex :
    (dial m3 7).result = Except.error (Error.transportNotSupported badAddr) ∧
    (dial m3 7).manager ≠ m3 ∧
    lookupAssoc (dial m3 7).manager.peers 7 = some ⟨PeerState.disconnected, []⟩ ∧
    lookupAssoc m3.peers 7 = some ⟨PeerState.disconnected, [badAddr]⟩ := by decide

/-- Claim C3 as amended: caller errors raised before the peer-record update
mutate no manager state: self-dial on a listen address, a malformed or
unsupported address stack in dial_address, an empty address, dialing the
local peer, an unknown peer, an already connected peer, and a disconnected
peer with no addresses all return the error with the manager unchanged and
nothing sent. (The amendment excludes the unregistered-transport error,
raised after the peer update, and a dial whose popped address then fails,
which loses the popped address: see the counterexample.) -/
theorem caller_errors_before_peer_update_pure :
    (∀ (m : Manager) (address : Multiaddr), address ∈ m.listenAddresses →
      dialAddress m address = ⟨Except.error Error.triedToDialSelf, m, []⟩) ∧
    (∀ (m : Manager) (seg : Proto) (rest : List Proto) (e : Error),
      isIpSeg seg = true → (seg :: rest) ∉ m.listenAddresses →
      resolveTransport rest (seg :: rest) = Except.error e →
      dialAddress m (seg :: rest) = ⟨Except.error e, m, []⟩) ∧
    (∀ (m : Manager) (seg : Proto) (rest : List Proto),
      isIpSeg seg = false → isDnsSeg seg = false →
      (seg :: rest) ∉ m.listenAddresses →
      dialAddress m (seg :: rest) =
        ⟨Except.error (Error.transportNotSupported (seg :: rest)), m, []⟩) ∧
    (∀ (m : Manager), ([] : Multiaddr) ∉ m.listenAddresses →
      dialAddress m [] = ⟨Except.error (Error.transportNotSupported []), m, []⟩) ∧
    (∀ (m : Manager) (peer : PeerId), peer = m.localPeerId →
      dial m peer = ⟨Except.error Error.triedToDialSelf, m, []⟩) ∧
    (∀ (m : Manager) (peer : PeerId), peer ≠ m.localPeerId →
      lookupAssoc m.peers peer = none →
      dial m peer = ⟨Except.error (Error.peerDoesntExist peer), m, []⟩) ∧
    (∀ (m : Manager) (peer : PeerId) (ctx : PeerContext) (a : Multiaddr),
      peer ≠ m.localPeerId → lookupAssoc m.peers peer = some ctx →
      ctx.state = PeerState.connected a →
      dial m peer = ⟨Except.error Error.alreadyConnected, m, []⟩) ∧
    (∀ (m : Manager) (peer : PeerId) (ctx : PeerContext),
      peer ≠ m.localPeerId → lookupAssoc m.peers peer = some ctx →
      ctx.state = PeerState.disconnected → ctx.addresses = [] →
      dial m peer = ⟨Except.error (Error.noAddressAvailable peer), m, []⟩) := by
  refine ⟨?_, ?_, ?_, ?_, ?_, ?_, ?_, ?_⟩
  · intro m address h; simp [dialAddress, h]
  · intro m seg rest e hip hl hr; exact dialAddress_resolve_error hip hl hr
  · intro m seg rest hip hdns hl
    cases seg <;>
      first
        | (simp [isIpSeg] at hip; done)
        | (simp [isDnsSeg] at hdns; done)
        | simp [dialAddress, hl]
  · intro m h; simp [dialAddress, h]
  · intro m peer h; simp [dial, h]
  · intro m peer h hlk; simp [dial, h, hlk]
  · intro m peer ctx a h hlk hs; simp [dial, h, hlk, hs]
  · intro m peer ctx h hlk hs ha; simp [dial, h, hlk, hs, ha]

/-- Witness for C3 as amended: a parse-stage caller error (tcp with no
identity segment) leaves the fresh manager untouched. -/
theorem caller_errors_before_peer_update_pure_witness :
    isIpSeg (Proto.ip4 1) = true ∧
    ([Proto.ip4 1, Proto.tcp 5] : Multiaddr) ∉ mW.listenAddresses ∧
    resolveTransport [Proto.tcp 5] [Proto.ip4 1, Proto.tcp 5] =
      Except.error (Error.transportNotSupported [Proto.ip4 1, Proto.tcp 5]) ∧
    dialAddress mW [Proto.ip4 1, Proto.tcp 5] =
      ⟨Except.error (Error.transportNotSupported [Proto.ip4 1, Proto.tcp 5]), mW, []⟩ :=
  ⟨by decide, by decide, by decide,
    caller_errors_before_peer_update_pure.2.1 mW (Proto.ip4 1) [Proto.tcp 5]
      (Error.transportNotSupported [Proto.ip4 1, Proto.tcp 5])
      (by decide) (by decide) (by decide)⟩

/-- Counterexample for C4: dialing peer 7, whose only known address is a
dns address, pops and removes the address, and the dns path never restores
it: the dial attempt is in flight (pending resolution) while the known
address set is empty, so known_addresses is not a superset of every address
used to attempt to reach the peer. -/
theorem known_addresses_superset_cex :
    (dial m4 7).result = Except.ok () ∧
    (dial m4 7).manager.pendingDnsResolves = [(0, dnsA)] ∧
    lookupAssoc (dial m4 7).manager.peers 7 = some ⟨PeerState.disconnected, []⟩ ∧
    lookupAssoc m4.peers 7 = some ⟨PeerState.disconnected, [dnsA]⟩ := by decide

/-- Claim C4 as amended: every address actually dispatched to a transport
by dial_address is recorded in the dialed peer known-address set (the
dispatch path inserts it); the unrestricted superset invariant fails
because dial removes the popped address and the dns path and error paths
never restore it. -/
theorem dial_address_dispatch_records_address
    (m : Manager) (seg : Proto) (rest : List Proto)
    (kind : SupportedTransport) (P : PeerId)
    (hip : isIpSeg seg = true)
    (hl : (seg :: rest) ∉ m.listenAddresses)
    (hr : resolveTransport rest (seg :: rest) = Except.ok (kind, P))
    (hfresh : notBlocked m P = true)
    (ht : kind ∈ m.transports) :
    ∃ ctx, lookupAssoc (dialAddress m (seg :: rest)).manager.peers P = some ctx ∧
      (seg :: rest) ∈ ctx.addresses ∧
      ctx.state = PeerState.dialing (seg :: rest) := by
  obtain ⟨addrs, heq, hmem⟩ := dialAddress_dispatch_shape hip hl hr hfresh ht
  refine ⟨⟨PeerState.dialing (seg :: rest), addrs⟩, ?_, hmem, rfl⟩
  rw [heq]; exact lookupAssoc_insertAssoc_self _ _ _

/-- Witness for C4 as amended: dispatching a dial for peer 7 records the
dialed address in its known-address set. -/
theorem dial_address_dispatch_records_address_witness :
    isIpSeg (Proto.ip4 1) = true ∧ a1 ∉ mW.listenAddresses ∧
    resolveTransport [Proto.tcp 8888, Proto.p2p (MultiHash.valid 7)] a1 =
      Except.ok (SupportedTransport.tcp, 7) ∧
    notBlocked mW 7 = true ∧ SupportedTransport.tcp ∈ mW.transports ∧
    (∃ ctx, lookupAssoc (dialAddress mW a1).manager.peers 7 = some ctx ∧
      a1 ∈ ctx.addresses ∧ ctx.state = PeerState.dialing a1) :=
  ⟨by decide, by decide, by decide, by decide, by decide,
    dial_address_dispatch_records_address mW (Proto.ip4 1)
      [Proto.tcp 8888, Proto.p2p (MultiHash.valid 7)] SupportedTransport.tcp 7
      (by decide) (by decide) (by decide) (by decide) (by decide)⟩

/-- Counterexample for C7: the address a1 resolves to the TCP kind, no
transport is registered, yet dial_address returns Ok (peer 7 is already
Dialing, so the dedup no-op precedes the transport-registry check), not
TransportNotSupported as the claim states for every such address. -/
theorem unregistered_transport_noop_cex :
    resolveTransport [Proto.tcp 8888, Proto.p2p (MultiHash.valid 7)] a1 =
      Except.ok (SupportedTransport.tcp, 7) ∧
    mD.transports = [] ∧
    (dialAddress mD a1).result = Except.ok () ∧
    (dialAddress mD a1).result ≠
      Except.error (Error.transportNotSupported a1) := by decide

/-- Claim C7 as amended: provided the target peer is not already Dialing
or Connected (otherwise the call is an Ok no-op), dial_address on an
address resolving to an unregistered transport kind returns
TransportNotSupported, creates no pending-dial entry, sends nothing, and
leaves the transport registry and listen addresses intact, so the manager
stays usable. -/
theorem unregistered_transport_terminal
    (m : Manager) (seg : Proto) (rest : List Proto)
    (kind : SupportedTransport) (P : PeerId)
    (hip : isIpSeg seg = true)
    (hl : (seg :: rest) ∉ m.listenAddresses)
    (hr : resolveTransport rest (seg :: rest) = Except.ok (kind, P))
    (hfresh : notBlocked m P = true)
    (ht : kind ∉ m.transports) :
    (dialAddress m (seg :: rest)).result =
      Except.error (Error.transportNotSupported (seg :: rest)) ∧
    (dialAddress m (seg :: rest)).manager.pendingConnections = m.pendingConnections ∧
    (dialAddress m (seg :: rest)).sent = [] ∧
    (dialAddress m (seg :: rest)).manager.transports = m.transports ∧
    (dialAddress m (seg :: rest)).manager.listenAddresses = m.listenAddresses := by
  obtain ⟨newPeers, heq⟩ := dialAddress_unregistered_shape hip hl hr hfresh ht
  rw [heq]
  exact ⟨rfl, rfl, rfl, rfl, rfl⟩

/-- Witness for C7 as amended: with no transport registered, dialing the
fresh peer 7 over a TCP address fails with TransportNotSupported and
records no pending entry. -/
theorem unregistered_transport_terminal_witness :
    isIpSeg (Proto.ip4 1) = true ∧ a1 ∉ m7.listenAddresses ∧
    resolveTransport [Proto.tcp 8888, Proto.p2p (MultiHash.valid 7)] a1 =
      Except.ok (SupportedTransport.tcp, 7) ∧
    notBlocked m7 7 = true ∧ SupportedTransport.tcp ∉ m7.transports ∧
    ((dialAddress m7 a1).result = Except.error (Error.transportNotSupported a1) ∧
     (dialAddress m7 a1).manager.pendingConnections = m7.pendingConnections ∧
     (dialAddress m7 a1).sent = [] ∧
     (dialAddress m7 a1).manager.transports = m7.transports ∧
     (dialAddress m7 a1).manager.listenAddresses = m7.listenAddresses) :=
  ⟨by decide, by decide, by decide, by decide, by decide,
    unregistered_transport_terminal m7 (Proto.ip4 1)
      [Proto.tcp 8888, Proto.p2p (MultiHash.valid 7)] SupportedTransport.tcp 7
      (by decide) (by decide) (by decide) (by decide) (by decide)⟩

/-- Counterexample for C6: the combination udp + quic-v1 with the trailing
identity segment missing is rejected with AddressError.PeerIdMissing, not
with TransportNotSupported as the claim states for every non-accepted
combination. -/
theorem quic_missing_peer_id_cex :
    (dialAddress mW [Proto.ip4 1, Proto.udp 8888, Proto.quicV1]).result =
      Except.error (Error.addressError AddressError.peerIdMissing) ∧
    (dialAddress mW [Proto.ip4 1, Proto.udp 8888, Proto.quicV1]).result ≠
      Except.error
        (Error.transportNotSupported [Proto.ip4 1, Proto.udp 8888, Proto.quicV1]) := by
  decide

/-- Claim C6 as amended: after a literal endpoint, exactly the combinations
tcp+p2p (TCP), tcp+ws+p2p (WebSocket) and udp+quic-v1+p2p (QUIC) with a
parseable identity are accepted; every rejection is TransportNotSupported
except udp+quic-v1 with the trailing identity segment missing, rejected as
AddressError.PeerIdMissing, and a p2p segment whose multihash is not a
valid peer id, rejected as InvalidData. The conjuncts map every input to
its exact result: the three accepted stacks with a parseable hash, the
three accepted stacks with an unparseable hash (InvalidData), udp+quic-v1
not followed by a p2p segment (PeerIdMissing), every stack selecting no
transport kind (TransportNotSupported), the error taxonomy, and the
converse characterization of acceptance. -/
theorem resolve_transport_accepted_stacks :
    (∀ (port : Nat) (hash : MultiHash) (peer : PeerId) (tail full : List Proto),
      fromMultihash hash = some peer →
      resolveTransport (Proto.tcp port :: Proto.p2p hash :: tail) full =
        Except.ok (SupportedTransport.tcp, peer)) ∧
    (∀ (port : Nat) (info : String) (hash : MultiHash) (peer : PeerId)
        (tail full : List Proto),
      fromMultihash hash = some peer →
      resolveTransport (Proto.tcp port :: Proto.ws info :: Proto.p2p hash :: tail) full =
        Except.ok (SupportedTransport.webSocket, peer)) ∧
    (∀ (port : Nat) (hash : MultiHash) (peer : PeerId) (tail full : List Proto),
      fromMultihash hash = some peer →
      resolveTransport (Proto.udp port :: Proto.quicV1 :: Proto.p2p hash :: tail) full =
        Except.ok (SupportedTransport.quic, peer)) ∧
    (∀ (port : Nat) (hash : MultiHash) (tail full : List Proto),
      fromMultihash hash = none →
      resolveTransport (Proto.tcp port :: Proto.p2p hash :: tail) full =
        Except.error Error.invalidData) ∧
    (∀ (port : Nat) (info : String) (hash : MultiHash) (tail full : List Proto),
      fromMultihash hash = none →
      resolveTransport (Proto.tcp port :: Proto.ws info :: Proto.p2p hash :: tail) full =
        Except.error Error.invalidData) ∧
    (∀ (port : Nat) (hash : MultiHash) (tail full : List Proto),
      fromMultihash hash = none →
      resolveTransport (Proto.udp port :: Proto.quicV1 :: Proto.p2p hash :: tail) full =
        Except.error Error.invalidData) ∧
    (∀ (port : Nat) (tail : List Proto) (full : Multiaddr),
      headIsP2p tail = false →
      resolveTransport (Proto.udp port :: Proto.quicV1 :: tail) full =
        Except.error (Error.addressError AddressError.peerIdMissing)) ∧
    (∀ (stack : List Proto) (full : Multiaddr),
      kindSelectingStack stack = false →
      resolveTransport stack full =
        Except.error (Error.transportNotSupported full)) ∧
    (∀ (stack : List Proto) (full : Multiaddr) (e : Error),
      resolveTransport stack full = Except.error e →
      e = Error.transportNotSupported full ∨
      e = Error.addressError AddressError.peerIdMissing ∨ e = Error.invalidData) ∧
    (∀ (stack : List Proto) (full : Multiaddr) (kind : SupportedTransport)
        (peer : PeerId),
      resolveTransport stack full = Except.ok (kind, peer) →
      (∃ port hash tail, stack = Proto.tcp port :: Proto.p2p hash :: tail ∧
         fromMultihash hash = some peer ∧ kind = SupportedTransport.tcp) ∨
      (∃ port info hash tail,
         stack = Proto.tcp port :: Proto.ws info :: Proto.p2p hash :: tail ∧
         fromMultihash hash = some peer ∧ kind = SupportedTransport.webSocket) ∨
      (∃ port hash tail,
         stack = Proto.udp port :: Proto.quicV1 :: Proto.p2p hash :: tail ∧
         fromMultihash hash = some peer ∧ kind = SupportedTransport.quic)) := by
  refine ⟨?_, ?_, ?_, ?_, ?_, ?_, ?_, ?_, ?_, ?_⟩
  · intro port hash peer tail full hm; simp [resolveTransport, hm]
  · intro port info hash peer tail full hm; simp [resolveTransport, hm]
  · intro port hash peer tail full hm; simp [resolveTransport, hm]
  · intro port hash tail full hm; simp [resolveTransport, hm]
  · intro port info hash tail full hm; simp [resolveTransport, hm]
  · intro port hash tail full hm; simp [resolveTransport, hm]
  · intro port tail full h
    cases tail with
    | nil => simp [resolveTransport]
    | cons seg t =>
      cases seg <;> first
        | (simp [headIsP2p] at h; done)
        | simp [resolveTransport]
  · intro stack full h
    unfold kindSelectingStack at h
    unfold resolveTransport
    repeat' split
    all_goals simp_all
  · intro stack full e h
    unfold resolveTransport at h
    repeat' split at h
    all_goals simp_all
  · intro stack full kind peer h
    unfold resolveTransport at h
    repeat' split at h
    all_goals simp_all
    all_goals first
      | exact ⟨_, _, _, ⟨rfl, rfl, rfl⟩, by assumption⟩
      | exact ⟨_, _, ⟨rfl, rfl⟩, by assumption⟩

/-- Witness for C6 as amended: a parseable tcp+p2p stack is accepted as
TCP; udp+quic-v1 with no identity segment maps to PeerIdMissing; a stack
selecting no kind (bare tcp) maps to TransportNotSupported; an unparseable
identity hash maps to InvalidData. -/
theorem resolve_transport_accepted_stacks_witness :
    fromMultihash (MultiHash.valid 7) = some 7 ∧
    resolveTransport [Proto.tcp 8888, Proto.p2p (MultiHash.valid 7)] a1 =
      Except.ok (SupportedTransport.tcp, 7) ∧
    headIsP2p ([] : List Proto) = false ∧
    resolveTransport [Proto.udp 8888, Proto.quicV1] [] =
      Except.error (Error.addressError AddressError.peerIdMissing) ∧
    kindSelectingStack [Proto.tcp 5] = false ∧
    resolveTransport [Proto.tcp 5] [Proto.ip4 1, Proto.tcp 5] =
      Except.error (Error.transportNotSupported [Proto.ip4 1, Proto.tcp 5]) ∧
    fromMultihash (MultiHash.invalid 3) = none ∧
    resolveTransport [Proto.tcp 8888, Proto.p2p (MultiHash.invalid 3)] [] =
      Except.error Error.invalidData :=
  ⟨rfl,
   resolve_transport_accepted_stacks.1 8888 (MultiHash.valid 7) 7 [] a1 rfl,
   by decide,
   resolve_transport_accepted_stacks.2.2.2.2.2.2.1 8888 [] [] (by decide),
   by decide,
   resolve_transport_accepted_stacks.2.2.2.2.2.2.2.1 [Proto.tcp 5]
     [Proto.ip4 1, Proto.tcp 5] (by decide),
   rfl,
   resolve_transport_accepted_stacks.2.2.2.1 8888 (MultiHash.invalid 3) [] [] rfl⟩

end Litep2p
